import Mathlib

/-!
Verification of the named websocket-connection multiplexer
(src/websocket/src/lib.rs) against its specification.

Shallow embedding notes:
- The two process-wide maps, `STREAM_MAP` (the Connection Registry) and
  `LAST_MESSAGE` (the Inbound Buffer Store), are modelled as association
  lists keyed by `String` inside a `WsState` record; every operation is a
  pure function from a `WsState` (plus environment inputs standing for
  network outcomes) to a result and a new `WsState`.
- A Rust `.unwrap()` on a missing key, which panics the calling thread, is
  modelled as `Except.error RtError.unwrapNone`.
- Re-locking the non-reentrant `std::sync::Mutex` guarding `STREAM_MAP`
  while the same call stack already holds it (which the `Drop` impl does)
  is modelled as `Except.error RtError.deadlock`; the lock-held context is
  threaded explicitly as the `streamLockHeld` flag.
- Network outcomes that the code only observes (URL parse success, header
  name/value validity, handshake result, the result of `send`/`close`) are
  environment parameters.
-/

instance {ε α : Type} [DecidableEq ε] [DecidableEq α] : DecidableEq (Except ε α) := fun a b =>
  match a, b with
  | Except.ok x, Except.ok y =>
      if h : x = y then isTrue (by rw [h]) else isFalse (by intro hc; cases hc; exact h rfl)
  | Except.error x, Except.error y =>
      if h : x = y then isTrue (by rw [h]) else isFalse (by intro hc; cases hc; exact h rfl)
  | Except.ok _, Except.error _ => isFalse (by intro hc; cases hc)
  | Except.error _, Except.ok _ => isFalse (by intro hc; cases hc)

/-- Keyed store: association list from connection name to a value, standing
for the `HashMap<String, _>` globals of the source. -/
abbrev StrMap (α : Type) := List (String × α)

/-- Lookup by key: first entry whose key matches, as `HashMap::get`. -/
def StrMap.find {α : Type} : StrMap α → String → Option α
  | [], _ => none
  | p :: rest, k => if p.1 = k then some p.2 else StrMap.find rest k

/-- Remove every entry with the given key, as `HashMap::remove`. -/
def StrMap.erase {α : Type} : StrMap α → String → StrMap α
  | [], _ => []
  | p :: rest, k => if p.1 = k then StrMap.erase rest k else p :: StrMap.erase rest k

/-- Insert-or-replace, as `HashMap::insert`. -/
def StrMap.insert {α : Type} (m : StrMap α) (k : String) (v : α) : StrMap α :=
  (k, v) :: StrMap.erase m k

/-- The key set, as `HashMap::keys`. -/
def StrMap.keys {α : Type} (m : StrMap α) : List String :=
  m.map Prod.fst

/-- The `WebSocketContainer` of the source: it wraps the outbound (write)
half of one split websocket transport. The transport itself is outside the
embedding, so the wrapped half is reduced to an identifying token. -/
structure WebSocketContainer where
  write : Nat
deriving DecidableEq, Repr

/-- The shared state of the plugin: `STREAM_MAP` (the Connection Registry)
and `LAST_MESSAGE` (the Inbound Buffer Store). -/
structure WsState where
  streamMap : StrMap WebSocketContainer
  lastMessage : StrMap (List String)
deriving DecidableEq, Repr

/-- How a caller-facing operation can crash instead of returning.
`unwrapNone` is a Rust `.unwrap()` on `Option::None` (a thread panic);
`deadlock` is re-locking the non-reentrant `std::sync::Mutex` that the same
call stack already holds. -/
inductive RtError where
  | unwrapNone
  | deadlock
deriving DecidableEq, Repr

/-- `PL_GetOpenWebsockets` (`get_open_connections`): the keys of
`STREAM_MAP`, i.e. the ListOpen operation. -/
def get_open_connections (st : WsState) : List String :=
  StrMap.keys st.streamMap

/-- `PL_ReadFromWebsocket` (`get_last_messages`): looks the buffer up with
`.get(&socket_name).unwrap()` (panic when absent), copies it out, then
clears the stored vector with `.get_mut(&socket_name).unwrap().clear()`. -/
def get_last_messages (st : WsState) (socket_name : String) :
    Except RtError (List String × WsState) :=
  match StrMap.find st.lastMessage socket_name with
  | none => Except.error RtError.unwrapNone
  | some buf =>
      Except.ok (buf, ⟨st.streamMap, StrMap.insert st.lastMessage socket_name []⟩)

/-- `disconnect_from_server` of the source. Its first action acquires the
`STREAM_MAP` lock (`streamLockHeld` says whether this call stack already
holds it, which deadlocks), then looks the container up with
`.get(socket_name).unwrap()` (panic when absent), awaits `close()` on the
write half — `closeOk` is that network outcome, logged either way — and
finally removes the registry entry unconditionally. `LAST_MESSAGE` is never
touched. -/
def disconnect_from_server (closeOk streamLockHeld : Bool) (st : WsState)
    (socket_name : String) : Except RtError WsState :=
  if streamLockHeld then Except.error RtError.deadlock
  else
    match StrMap.find st.streamMap socket_name with
    | none => Except.error RtError.unwrapNone
    | some _ =>
        let _ := closeOk
        Except.ok ⟨StrMap.erase st.streamMap socket_name, st.lastMessage⟩

/-- `write_message` of the source: looks the container up with `get` (no
unwrap here), returns `false` when absent, otherwise sends one text frame;
`sendOk` is the network outcome of that `send`. -/
def write_message (sendOk : Bool) (st : WsState) (socket_name message : String) : Bool :=
  let _ := message
  match StrMap.find st.streamMap socket_name with
  | some _ => sendOk
  | none => false

/-- `PL_WriteToWebsocket` (`sq_write_message`): blocks on `write_message`
and, whenever it returned `false`, additionally runs
`disconnect_from_server` before handing `false` back to the caller. -/
def sq_write_message (sendOk closeOk : Bool) (st : WsState)
    (socket_name message : String) : Except RtError (Bool × WsState) :=
  if write_message sendOk st socket_name message then Except.ok (true, st)
  else
    match disconnect_from_server closeOk false st socket_name with
    | Except.error e => Except.error e
    | Except.ok st' => Except.ok (false, st')

/-- `header.iter().step_by(2)` of the source: every second element of a
list, starting with the first. -/
def stepBy2 {α : Type} : List α → List α
  | [] => []
  | [x] => [x]
  | x :: _ :: rest => x :: stepBy2 rest

/-- Scanner for Rust `str::split` with a fixed non-empty pattern: consume
the input one character onto the current token; the moment the current
token ends with the separator, cut the separator off, emit the token, and
restart — this yields exactly the leftmost non-overlapping occurrences the
Rust iterator splits on. -/
def splitScan (sep : List Char) : List Char → List Char → List (List Char)
  | [], cur => [cur]
  | c :: rest, cur =>
      let cur2 := cur ++ [c]
      if List.isSuffixOf sep cur2 then
        List.take (cur2.length - sep.length) cur2 :: splitScan sep rest []
      else splitScan sep rest cur2

/-- Rust `str::split` for a non-empty pattern (the source only splits on
`"|#!#|"`): the substrings between consecutive non-overlapping occurrences
of the separator; the empty input gives `[""]`. -/
def strSplit (sep s : String) : List String :=
  (splitScan sep.data s.data []).map fun cs => String.mk cs

/-- `headers.split("|#!#|")` of the source: the raw header tokens. -/
def headerTokens (headers : String) : List String :=
  strSplit "|#!#|" headers

/-- The (name, value) pairs the source's header loop iterates:
`tokens.iter().step_by(2).zip(tokens.iter().skip(1).step_by(2))`. -/
def headerPairs (tokens : List String) : List (String × String) :=
  List.zip (stepBy2 tokens) (stepBy2 (tokens.drop 1))

/-- Modelled from the spec, for comparison with `headerPairs` only: consume
the split tokens pairwise — first with second, third with fourth, and so
on — dropping a final unpaired token. -/
def specPairs : List String → List (String × String)
  | a :: b :: rest => (a, b) :: specPairs rest
  | _ => []

/-- Outcome of the time-bounded `connect_async` call: success, a
transport/handshake error, or the timeout elapsing. -/
inductive ConnectOutcome where
  | success
  | handshakeError
  | timedOut
deriving DecidableEq, Repr

/-- Environment of one Connect attempt: whether
`url.into_client_request()` succeeds, which header names/values
`HeaderName::from_str` / `HeaderValue::from_str` accept, the handshake
outcome, and the container produced on success. -/
structure ConnectEnv where
  urlValid : Bool
  headerNameValid : String → Bool
  headerValueValid : String → Bool
  outcome : ConnectOutcome
  newConn : WebSocketContainer

/-- Whether every (name, value) pair of the header loop parses; the source
unwraps each `from_str`, so one invalid pair panics the call. -/
def headersValid (env : ConnectEnv) (tokens : List String) : Bool :=
  (headerPairs tokens).all fun p => env.headerNameValid p.1 && env.headerValueValid p.2

/-- `connect_to_server` of the source: unwraps the client-request build
(panic on a malformed URL), unwraps each header pair's parse (panic on an
invalid name or value), then performs the time-bounded handshake. On
success it installs the new container in `STREAM_MAP`, installs a fresh
empty vector in `LAST_MESSAGE` (overwriting any previous buffer), spawns
the read loop (modelled separately as `read_loop`), and returns `true`; on
a handshake error or timeout it logs and returns `false` with the state
untouched. -/
def connect_to_server (env : ConnectEnv) (st : WsState)
    (socket_name url_string headers : String) : Except RtError (Bool × WsState) :=
  let _ := url_string
  let tokens := headerTokens headers
  if env.urlValid = false then Except.error RtError.unwrapNone
  else if headersValid env tokens = false then Except.error RtError.unwrapNone
  else
    match env.outcome with
    | ConnectOutcome.success =>
        Except.ok (true,
          ⟨StrMap.insert st.streamMap socket_name env.newConn,
           StrMap.insert st.lastMessage socket_name []⟩)
    | ConnectOutcome.handshakeError => Except.ok (false, st)
    | ConnectOutcome.timedOut => Except.ok (false, st)

/-- `PL_ConnectToWebsocket` (`sq_connect_to_server`): when the name already
has a registry entry, `keep_alive = true` keeps the existing socket and
returns success at once, `keep_alive = false` disconnects first; a new
handshake runs only when no entry is kept. The third component of the
result records whether a new handshake was attempted
(`open_new_socket` in the source). -/
def sq_connect_to_server (env : ConnectEnv) (closeOk : Bool) (st : WsState)
    (socket_name url headers : String) (keep_alive : Bool) :
    Except RtError (Bool × WsState × Bool) :=
  if (StrMap.find st.streamMap socket_name).isSome then
    if keep_alive then Except.ok (true, st, false)
    else
      match disconnect_from_server closeOk false st socket_name with
      | Except.error e => Except.error e
      | Except.ok st' =>
          match connect_to_server env st' socket_name url headers with
          | Except.error e => Except.error e
          | Except.ok (b, st'') => Except.ok (b, st'', true)
  else
    match connect_to_server env st socket_name url headers with
    | Except.error e => Except.error e
    | Except.ok (b, st') => Except.ok (b, st', true)

/-- One inbound frame as the read loop classifies it: text, binary, ping,
pong, close, or the raw-frame fallback arm. -/
inductive Frame where
  | text (s : String)
  | binary
  | ping
  | pong
  | close
  | frame
deriving DecidableEq, Repr

/-- One `read_stream.next()` result: `Err(_)` or `Ok(message)`. -/
inductive FrameResult where
  | err
  | ok (m : Frame)
deriving DecidableEq, Repr

/-- The spawned read loop of `connect_to_server`, as a function from the
buffered messages for this connection and the sequence of receive results
to the final buffer: a text frame is appended; binary, ping, pong and the
raw-frame arm are logged only; a close frame breaks the loop; an `Err`
result is logged (`closed unexpectedly`) and — the source has no `break`
in that arm — the loop continues with the next result. -/
def read_loop (buf : List String) : List FrameResult → List String
  | [] => buf
  | FrameResult.err :: rest => read_loop buf rest
  | FrameResult.ok (Frame.text s) :: rest => read_loop (buf ++ [s]) rest
  | FrameResult.ok Frame.binary :: rest => read_loop buf rest
  | FrameResult.ok Frame.ping :: rest => read_loop buf rest
  | FrameResult.ok Frame.pong :: rest => read_loop buf rest
  | FrameResult.ok Frame.close :: _ => buf
  | FrameResult.ok Frame.frame :: rest => read_loop buf rest

/-- The body of `impl Drop for WebsocketPlugin`, one registry key at a
time: each iteration calls `disconnect_from_server` while the for-loop
still holds the `STREAM_MAP` lock (`streamLockHeld = true`). -/
def sweepGo (closeOk : Bool) : List String → WsState → Except RtError WsState
  | [], st => Except.ok st
  | k :: rest, st =>
      match disconnect_from_server closeOk true st k with
      | Except.error e => Except.error e
      | Except.ok st' => sweepGo closeOk rest st'

/-- `impl Drop for WebsocketPlugin`: iterates `&*STREAM_MAP.lock().unwrap()`
— so the registry lock is held for the whole loop — and calls
`disconnect_from_server` on every key. -/
def drop_sweep (closeOk : Bool) (st : WsState) : Except RtError WsState :=
  sweepGo closeOk (StrMap.keys st.streamMap) st

/-! Helper lemmas about the keyed store. -/

theorem StrMap.find_erase_self {α : Type} (m : StrMap α) (k : String) :
    StrMap.find (StrMap.erase m k) k = none := by
  induction m with
  | nil => rfl
  | cons p rest ih =>
      by_cases h : p.1 = k <;>
        simp [StrMap.erase, StrMap.find, h, ih]

theorem StrMap.not_mem_keys_erase {α : Type} (m : StrMap α) (k : String) :
    k ∉ StrMap.keys (StrMap.erase m k) := by
  induction m with
  | nil => simp [StrMap.erase, StrMap.keys]
  | cons p rest ih =>
      by_cases h : p.1 = k
      · simpa [StrMap.erase, h] using ih
      · simp only [StrMap.erase, h, if_false, StrMap.keys, List.map_cons, List.mem_cons]
        intro hmem
        rcases hmem with heq | hmem
        · exact h heq.symm
        · exact ih hmem

theorem StrMap.find_insert_self {α : Type} (m : StrMap α) (k : String) (v : α) :
    StrMap.find (StrMap.insert m k v) k = some v := by
  simp [StrMap.insert, StrMap.find]

/-! Claim theorems. -/

/-- C1: the claim requires Disconnect, Write and ReadBuffered on a name
with no Registry/Buffer entry to return a defined failure or empty result
without crashing; evaluating the code on the unknown name `ghost` over
empty stores shows all three panic instead: `get_last_messages` and
`disconnect_from_server` unwrap a `None` lookup, and `sq_write_message`
reaches the same panicking disconnect after its `false` send result. -/
theorem unknown_name_operations_crash :
    get_last_messages ⟨[], []⟩ "ghost" = Except.error RtError.unwrapNone ∧
    disconnect_from_server true false ⟨[], []⟩ "ghost" = Except.error RtError.unwrapNone ∧
    sq_write_message true true ⟨[], []⟩ "ghost" "hello" = Except.error RtError.unwrapNone := by
  decide

/-- C2: the claim requires every Connect failure category to come back as
boolean `false`; evaluating the code shows an invalid header name and a
malformed URL panic the call (unwrap), while only the handshake-error and
timeout categories are reported as `false`. -/
theorem connect_failure_reporting_audit :
    connect_to_server ⟨true, fun _ => false, fun _ => true, ConnectOutcome.success, ⟨0⟩⟩
      ⟨[], []⟩ "s" "ws://x" "bad|#!#|v" = Except.error RtError.unwrapNone ∧
    connect_to_server ⟨false, fun _ => true, fun _ => true, ConnectOutcome.success, ⟨0⟩⟩
      ⟨[], []⟩ "s" "not a url" "" = Except.error RtError.unwrapNone ∧
    connect_to_server ⟨true, fun _ => true, fun _ => true, ConnectOutcome.handshakeError, ⟨0⟩⟩
      ⟨[], []⟩ "s" "ws://x" "" = Except.ok (false, ⟨[], []⟩) ∧
    connect_to_server ⟨true, fun _ => true, fun _ => true, ConnectOutcome.timedOut, ⟨0⟩⟩
      ⟨[], []⟩ "s" "ws://x" "" = Except.ok (false, ⟨[], []⟩) := by
  decide

/-- C3 counterexample: with the receive results `[Err, Ok(Text "after")]`
the loop, started on an empty buffer, appends the text frame that arrived
after the transport error — the claim predicts the loop terminates at the
error and the buffer stays empty. -/
theorem read_loop_processes_after_error_cex :
    read_loop [] [FrameResult.err, FrameResult.ok (Frame.text "after")] = ["after"] := by
  decide

/-- C3 amended: the read loop logs a transport-level receive error and
continues with the next receive result (its `Err` arm has no `break`), so
frames after an error are still processed; the loop terminates when the
stream ends or at the first close frame. -/
theorem read_loop_continues_after_error (buf : List String) (rest : List FrameResult) :
    read_loop buf (FrameResult.err :: rest) = read_loop buf rest ∧
    read_loop buf (FrameResult.ok Frame.close :: rest) = buf :=
  ⟨rfl, rfl⟩

/-- C4: the claim requires the teardown sweep to disconnect every
registered name and finish with ListOpen empty; evaluating the code on a
registry holding `a`, `b`, `c` shows the first `disconnect_from_server`
call re-acquires the `STREAM_MAP` mutex that the `Drop` for-loop already
holds, so the sweep deadlocks instead of completing (it completes only
when the registry was already empty). -/
theorem shutdown_sweep_deadlocks_cex :
    drop_sweep true ⟨[("a", ⟨0⟩), ("b", ⟨1⟩), ("c", ⟨2⟩)], []⟩
      = Except.error RtError.deadlock ∧
    drop_sweep true ⟨[], []⟩ = Except.ok ⟨[], []⟩ := by
  decide

/-- C5: for a name with a live registry entry, a failing send makes
`sq_write_message` run the disconnect workflow — the name is gone from
ListOpen — before returning `false`; a succeeding send returns `true`
with the state untouched. -/
theorem write_failure_cascades_to_disconnect (st : WsState)
    (socket_name message : String) (closeOk : Bool)
    (h : (StrMap.find st.streamMap socket_name).isSome) :
    (∃ st', sq_write_message false closeOk st socket_name message = Except.ok (false, st') ∧
      socket_name ∉ get_open_connections st') ∧
    sq_write_message true closeOk st socket_name message = Except.ok (true, st) := by
  obtain ⟨c, hc⟩ := Option.isSome_iff_exists.mp h
  refine ⟨⟨⟨StrMap.erase st.streamMap socket_name, st.lastMessage⟩, ?_, ?_⟩, ?_⟩
  · simp [sq_write_message, write_message, hc, disconnect_from_server]
  · exact StrMap.not_mem_keys_erase st.streamMap socket_name
  · simp [sq_write_message, write_message, hc]

/-- Witness for C5 at the concrete state {a ↦ container 0}. -/
theorem write_failure_cascades_to_disconnect_witness :
    (∃ st', sq_write_message false true ⟨[("a", ⟨0⟩)], []⟩ "a" "hi" = Except.ok (false, st') ∧
      "a" ∉ get_open_connections st') ∧
    sq_write_message true true ⟨[("a", ⟨0⟩)], []⟩ "a" "hi"
      = Except.ok (true, ⟨[("a", ⟨0⟩)], []⟩) :=
  write_failure_cascades_to_disconnect ⟨[("a", ⟨0⟩)], []⟩ "a" "hi" true (by decide)

/-- C6: for a name whose buffer store entry holds `buf`, ReadBuffered
returns exactly `buf` (the stored arrival order, in full) and clears the
entry, so an immediate second call with no new arrivals returns `[]`. -/
theorem readBuffered_fifo_drain (st : WsState) (socket_name : String)
    (buf : List String)
    (h : StrMap.find st.lastMessage socket_name = some buf) :
    ∃ st', get_last_messages st socket_name = Except.ok (buf, st') ∧
      ∃ st'', get_last_messages st' socket_name = Except.ok ([], st'') := by
  refine ⟨⟨st.streamMap, StrMap.insert st.lastMessage socket_name []⟩, ?_,
    ⟨⟨st.streamMap, StrMap.insert (StrMap.insert st.lastMessage socket_name []) socket_name []⟩, ?_⟩⟩
  · simp [get_last_messages, h]
  · simp [get_last_messages, StrMap.find_insert_self]

/-- Witness for C6 at the concrete buffer {s ↦ [a, b, c]}. -/
theorem readBuffered_fifo_drain_witness :
    ∃ st', get_last_messages ⟨[], [("s", ["a", "b", "c"])]⟩ "s"
        = Except.ok (["a", "b", "c"], st') ∧
      ∃ st'', get_last_messages st' "s" = Except.ok ([], st'') :=
  readBuffered_fifo_drain ⟨[], [("s", ["a", "b", "c"])]⟩ "s" ["a", "b", "c"] (by decide)

/-- C7: for a name with a live registry entry, `disconnect_from_server`
(called with the registry lock free) removes that entry whether or not the
close attempt succeeded (`closeOk` is universally quantified), and leaves
the buffer store exactly as it was. -/
theorem disconnect_removes_registry_keeps_buffer (st : WsState)
    (socket_name : String) (closeOk : Bool)
    (h : (StrMap.find st.streamMap socket_name).isSome) :
    ∃ st', disconnect_from_server closeOk false st socket_name = Except.ok st' ∧
      StrMap.find st'.streamMap socket_name = none ∧
      socket_name ∉ get_open_connections st' ∧
      st'.lastMessage = st.lastMessage := by
  obtain ⟨c, hc⟩ := Option.isSome_iff_exists.mp h
  exact ⟨⟨StrMap.erase st.streamMap socket_name, st.lastMessage⟩,
    by simp [disconnect_from_server, hc],
    StrMap.find_erase_self st.streamMap socket_name,
    StrMap.not_mem_keys_erase st.streamMap socket_name, rfl⟩

/-- Witness for C7 at the concrete state {a ↦ container 0} with a
buffered message, for a failing close. -/
theorem disconnect_removes_registry_keeps_buffer_witness :
    ∃ st', disconnect_from_server false false ⟨[("a", ⟨0⟩)], [("a", ["m"])]⟩ "a"
        = Except.ok st' ∧
      StrMap.find st'.streamMap "a" = none ∧
      "a" ∉ get_open_connections st' ∧
      st'.lastMessage = (⟨[("a", ⟨0⟩)], [("a", ["m"])]⟩ : WsState).lastMessage :=
  disconnect_removes_registry_keeps_buffer ⟨[("a", ⟨0⟩)], [("a", ["m"])]⟩ "a" false (by decide)

theorem stepBy2_cons {α : Type} (x : α) (l : List α) :
    stepBy2 (x :: l) = x :: stepBy2 (l.drop 1) := by
  cases l <;> rfl

theorem zip_stepBy2_eq_specPairs : (l : List String) →
    List.zip (stepBy2 l) (stepBy2 (l.drop 1)) = specPairs l
  | [] => rfl
  | [_] => rfl
  | a :: b :: rest => by
      have ih := zip_stepBy2_eq_specPairs rest
      simp only [stepBy2, List.drop, stepBy2_cons, List.zip_cons_cons, specPairs]
      rw [ih]

/-- C8: for every header string, the pairs the source's
step-by-two/zip loop iterates are exactly the split tokens consumed
pairwise (first with second, third with fourth, …), a final unpaired token
being silently dropped; concretely, the tokens of
`X|#!#|Y|#!#|A|#!#|B|#!#|Z` pair as (X,Y),(A,B) with the trailing Z
dropped. -/
theorem header_pairing_refines_spec :
    (∀ headers : String, headerPairs (headerTokens headers) = specPairs (headerTokens headers)) ∧
    headerTokens "X|#!#|Y|#!#|A|#!#|B|#!#|Z" = ["X", "Y", "A", "B", "Z"] ∧
    headerPairs ["X", "Y", "A", "B", "Z"] = [("X", "Y"), ("A", "B")] :=
  ⟨fun headers => zip_stepBy2_eq_specPairs (headerTokens headers), by decide, by decide⟩

/-- C9: when the name already has a live registry entry,
`sq_connect_to_server` with `keep_alive = true` returns success at once,
with the state (registry entry and inbound buffer included) unchanged and
no new handshake attempted (the `false` in the third component). -/
theorem keep_alive_connect_is_noop (env : ConnectEnv) (closeOk : Bool)
    (st : WsState) (socket_name url headers : String)
    (h : (StrMap.find st.streamMap socket_name).isSome) :
    sq_connect_to_server env closeOk st socket_name url headers true
      = Except.ok (true, st, false) := by
  simp [sq_connect_to_server, h]

/-- Witness for C9 at the concrete state {a ↦ container 0} with a
buffered message. -/
theorem keep_alive_connect_is_noop_witness :
    sq_connect_to_server ⟨true, fun _ => true, fun _ => true, ConnectOutcome.success, ⟨7⟩⟩
      true ⟨[("a", ⟨0⟩)], [("a", ["m"])]⟩ "a" "ws://x" "" true
      = Except.ok (true, ⟨[("a", ⟨0⟩)], [("a", ["m"])]⟩, false) :=
  keep_alive_connect_is_noop ⟨true, fun _ => true, fun _ => true, ConnectOutcome.success, ⟨7⟩⟩
    true ⟨[("a", ⟨0⟩)], [("a", ["m"])]⟩ "a" "ws://x" "" (by decide)

/-- C10: a `connect_to_server` call that reaches a successful handshake
(valid URL, parseable headers, `success` outcome) returns `true` and
overwrites the inbound buffer entry for the name with the empty buffer —
whatever was buffered before is discarded, and an immediate ReadBuffered
on the new connection returns `[]`. -/
theorem connect_success_resets_buffer (env : ConnectEnv) (st : WsState)
    (socket_name url headers : String)
    (hurl : env.urlValid = true)
    (hhdr : headersValid env (headerTokens headers) = true)
    (hout : env.outcome = ConnectOutcome.success) :
    ∃ st', connect_to_server env st socket_name url headers = Except.ok (true, st') ∧
      StrMap.find st'.lastMessage socket_name = some [] ∧
      ∃ st'', get_last_messages st' socket_name = Except.ok ([], st'') := by
  refine ⟨⟨StrMap.insert st.streamMap socket_name env.newConn,
    StrMap.insert st.lastMessage socket_name []⟩, ?_, StrMap.find_insert_self _ _ _,
    ⟨⟨StrMap.insert st.streamMap socket_name env.newConn,
      StrMap.insert (StrMap.insert st.lastMessage socket_name []) socket_name []⟩, ?_⟩⟩
  · simp [connect_to_server, hurl, hhdr, hout]
  · simp [get_last_messages, StrMap.find_insert_self]

/-- Witness for C10: reconnecting the name `s`, whose buffer still holds
two undrained messages, leaves the buffer entry empty. -/
theorem connect_success_resets_buffer_witness :
    ∃ st', connect_to_server ⟨true, fun _ => true, fun _ => true, ConnectOutcome.success, ⟨1⟩⟩
        ⟨[], [("s", ["old1", "old2"])]⟩ "s" "ws://x" "" = Except.ok (true, st') ∧
      StrMap.find st'.lastMessage "s" = some [] ∧
      ∃ st'', get_last_messages st' "s" = Except.ok ([], st'') :=
  connect_success_resets_buffer ⟨true, fun _ => true, fun _ => true, ConnectOutcome.success, ⟨1⟩⟩
    ⟨[], [("s", ["old1", "old2"])]⟩ "s" "ws://x" "" (by decide) (by decide) (by decide)
